import Mathlib

/-!
Shallow embedding of the gps backend core (src/backend/src/main.rs,
location_store.rs, sapphire_client.rs).

Modelling choices:
- Rust `HashMap<String, V>` is embedded as an association list
  `List (String × V)` with at most one entry per key, observed only
  through `findEntry`; `insert` replaces, `remove` erases, `get_mut`
  modifies in place.
- The friendship map `HashMap<String, Vec<String>>`, always read through
  `get(..).unwrap_or(vec![])`, is embedded as a total function
  `String → List String` defaulting to the empty list.
- `f64` coordinates are embedded as `ℚ`; Rust `f64::round` (round half
  away from zero per its documentation) is `roundAwayFromZero`.
- `SystemTime::now()` timestamps are explicit `Int` parameters threaded
  through each mutating operation.
-/

namespace GPS

/-- Sharing level enum from main.rs. -/
inductive SharingLevel where
  | City
  | Realtime
deriving DecidableEq, Repr

/-- LocationData struct from main.rs, coordinates as rationals. -/
structure LocationData where
  latitude : ℚ
  longitude : ℚ
  city : Option String
  country : Option String
  timestamp : Option Int
deriving DecidableEq, Repr

/-- User struct from main.rs. -/
structure User where
  id : String
  user_name : Option String
  sharing_level : Option SharingLevel
  location : Option LocationData
  last_updated : Option Int
deriving DecidableEq, Repr

/-- Friend request status enum from location_store.rs. -/
inductive FriendRequestStatus where
  | Pending
  | Accepted
  | Declined
deriving DecidableEq, Repr

/-- FriendRequest struct from location_store.rs. -/
structure FriendRequest where
  id : String
  sender_id : String
  receiver_id : String
  status : FriendRequestStatus
  timestamp : Int
deriving DecidableEq, Repr

/-! ### Association-list model of HashMap -/

/-- Lookup: first value stored under key k (HashMap keeps keys unique). -/
def findEntry {α : Type} (k : String) : List (String × α) → Option α
  | [] => none
  | e :: es => if e.1 = k then some e.2 else findEntry k es

/-- Remove every entry with key k (HashMap::remove). -/
def eraseEntry {α : Type} (k : String) : List (String × α) → List (String × α)
  | [] => []
  | e :: es => if e.1 = k then eraseEntry k es else e :: eraseEntry k es

/-- HashMap::insert: the map afterwards binds k to v and nothing else changes. -/
def insertEntry {α : Type} (k : String) (v : α) (m : List (String × α)) :
    List (String × α) :=
  (k, v) :: eraseEntry k m

/-- HashMap::get_mut followed by an in-place mutation of the found value. -/
def modifyEntry {α : Type} (k : String) (f : α → α) (m : List (String × α)) :
    List (String × α) :=
  m.map fun e => if e.1 = k then (e.1, f e.2) else e

/-! ### LocationStore: user registry (location_store.rs) -/

/-- The users map of LocationStore. -/
def Users : Type := List (String × User)

/-- location_store.rs update_location: stamps the incoming location with the
current time, then upserts the user record. -/
def update_location (users : Users) (user_id : String) (location : LocationData)
    (timestamp : Int) : Users :=
  let location2 : LocationData := { location with timestamp := some timestamp }
  match findEntry user_id users with
  | some user =>
      insertEntry user_id
        { user with location := some location2, last_updated := some timestamp }
        users
  | none =>
      insertEntry user_id
        { id := user_id, user_name := none, sharing_level := none,
          location := some location2, last_updated := some timestamp }
        users

/-- location_store.rs update_sharing_level. -/
def update_sharing_level (users : Users) (user_id : String)
    (level : SharingLevel) (timestamp : Int) : Users :=
  match findEntry user_id users with
  | some user =>
      insertEntry user_id
        { user with sharing_level := some level, last_updated := some timestamp }
        users
  | none =>
      insertEntry user_id
        { id := user_id, user_name := none, sharing_level := some level,
          location := none, last_updated := some timestamp }
        users

/-- location_store.rs update_profile. -/
def update_profile (users : Users) (user_id : String)
    (user_name : Option String) (timestamp : Int) : Users :=
  match findEntry user_id users with
  | some user =>
      insertEntry user_id
        { user with user_name := user_name, last_updated := some timestamp }
        users
  | none =>
      insertEntry user_id
        { id := user_id, user_name := user_name, sharing_level := none,
          location := none, last_updated := some timestamp }
        users

/-- location_store.rs get_user. -/
def get_user (users : Users) (user_id : String) : Option User :=
  findEntry user_id users

/-! ### LocationStore: friend-request workflow (location_store.rs) -/

/-- The friend_requests map of LocationStore. -/
def Requests : Type := List (String × FriendRequest)

/-- The deterministically derived request id: format of sender, "_", receiver. -/
def requestIdOf (sender_id receiver_id : String) : String :=
  sender_id ++ "_" ++ receiver_id

/-- location_store.rs send_friend_request. Returns the Result together with
the friend_requests map after the call (unchanged on error). -/
def send_friend_request (requests : Requests) (sender_id receiver_id : String)
    (timestamp : Int) : Except String FriendRequest × Requests :=
  let request_id := requestIdOf sender_id receiver_id
  match findEntry request_id requests with
  | some _ => (.error "Friend request already exists", requests)
  | none =>
      let request : FriendRequest :=
        { id := request_id, sender_id := sender_id, receiver_id := receiver_id,
          status := .Pending, timestamp := timestamp }
      (.ok request, insertEntry request_id request requests)

/-- location_store.rs get_friend_requests: pending requests addressed to a user. -/
def get_friend_requests (requests : Requests) (user_id : String) :
    List FriendRequest :=
  (requests.map Prod.snd).filter fun req =>
    decide (req.receiver_id = user_id) &&
      decide (req.status = FriendRequestStatus.Pending)

/-- location_store.rs accept_friend_request: flips the status to Accepted in
place if the id is present, NotFound error otherwise. -/
def accept_friend_request (requests : Requests) (request_id : String) :
    Except String FriendRequest × Requests :=
  match findEntry request_id requests with
  | some request =>
      (.ok { request with status := .Accepted },
       modifyEntry request_id (fun r => { r with status := .Accepted }) requests)
  | none => (.error "Friend request not found", requests)

/-- location_store.rs decline_friend_request: unconditional removal, always Ok. -/
def decline_friend_request (requests : Requests) (request_id : String) :
    Except String Unit × Requests :=
  (.ok (), eraseEntry request_id requests)

/-! ### SapphireClient: friend graph (sapphire_client.rs) -/

/-- The friendships map, observed through get(..).unwrap_or(empty). -/
def Friendships : Type := String → List String

/-- The empty friendship map. -/
def emptyFriendships : Friendships := fun _ => []

/-- Pointwise map update (HashMap entry write). -/
def updateList (m : Friendships) (k : String) (v : List String) : Friendships :=
  fun x => if x = k then v else m x

/-- sapphire_client.rs get_friends. -/
def get_friends (m : Friendships) (user_id : String) : List String :=
  m user_id

/-- sapphire_client.rs add_friend: push friend_id onto user_id's list, then
push user_id onto friend_id's list (both entry().or_insert().push()). -/
def add_friend (m : Friendships) (user_id friend_id : String) : Friendships :=
  let m1 := updateList m user_id (m user_id ++ [friend_id])
  updateList m1 friend_id (m1 friend_id ++ [user_id])

/-- sapphire_client.rs remove_friend: retain everything except friend_id in
user_id's list and vice versa. -/
def remove_friend (m : Friendships) (user_id friend_id : String) : Friendships :=
  let m1 := updateList m user_id ((m user_id).filter fun f => f ≠ friend_id)
  updateList m1 friend_id ((m1 friend_id).filter fun f => f ≠ user_id)

/-! ### Privacy filter and read handlers (main.rs) -/

/-- Rust f64::round: nearest integer, ties rounded half away from zero. -/
def roundAwayFromZero (q : ℚ) : ℤ :=
  if 0 ≤ q then ⌊q + 1/2⌋ else -⌊-q + 1/2⌋

/-- City-level rounding of a location, from the inline filtering code in
get_friends_locations and get_friend_location: each coordinate is multiplied
by 100, rounded, divided by 100. -/
def filterCity (location : LocationData) : LocationData :=
  { location with
    latitude := (roundAwayFromZero (location.latitude * 100) : ℚ) / 100,
    longitude := (roundAwayFromZero (location.longitude * 100) : ℚ) / 100 }

/-- The privacy transform of spec section 4.4 as the code implements it on a
present location: Realtime passes through, City coarsens, absent sharing
level suppresses the location. -/
def privacyTransform (location : LocationData) (level : Option SharingLevel) :
    Option LocationData :=
  match level with
  | some .City => some (filterCity location)
  | some .Realtime => some location
  | none => none

/-- The inline privacy filtering applied to a fetched User in
get_friends_locations and get_friend_location (main.rs). -/
def applyPrivacy (friend : User) : User :=
  match friend.location with
  | none => friend
  | some location =>
      match friend.sharing_level with
      | some .City => { friend with location := some (filterCity location) }
      | some .Realtime => friend
      | none => { friend with location := none }

/-- The empty profile synthesized by the handlers for an unknown id. -/
def emptyUser (user_id : String) : User :=
  { id := user_id, user_name := none, sharing_level := none, location := none,
    last_updated := none }

/-- main.rs get_profile: returns the stored record as is, or an empty profile. -/
def get_profile (users : Users) (user_id : String) : User :=
  match get_user users user_id with
  | some user => user
  | none => emptyUser user_id

/-- main.rs get_friend_location: friendship check, then privacy filtering. -/
def get_friend_location (users : Users) (friendships : Friendships)
    (user_id friend_id : String) : User :=
  let friends := get_friends friendships user_id
  if friend_id ∈ friends then
    match get_user users friend_id with
    | some friend => applyPrivacy friend
    | none => emptyUser friend_id
  else emptyUser friend_id

/-- main.rs get_friends_locations: collect each friend's record, privacy
filtered; friends without a stored record are skipped. -/
def get_friends_locations (users : Users) (friendships : Friendships)
    (user_id : String) : List User :=
  (get_friends friendships user_id).filterMap fun friend_id =>
    (get_user users friend_id).map applyPrivacy

/-! ### Operation sequences -/

/-- Decidable equality of Result values, to evaluate handler outcomes. -/
instance {ε α : Type} [DecidableEq ε] [DecidableEq α] :
    DecidableEq (Except ε α) := fun x y =>
  match x, y with
  | .ok a, .ok b =>
      if h : a = b then .isTrue (by rw [h]) else .isFalse (by simp [h])
  | .error a, .error b =>
      if h : a = b then .isTrue (by rw [h]) else .isFalse (by simp [h])
  | .ok _, .error _ => .isFalse (by simp)
  | .error _, .ok _ => .isFalse (by simp)

/-- One operation of the friend-request workflow. -/
inductive WOp where
  | send (sender_id receiver_id : String) (timestamp : Int)
  | listPending (user_id : String)
  | accept (request_id : String)
  | decline (request_id : String)
deriving DecidableEq

/-- Whether a workflow operation is a decline. -/
def WOp.isDecline : WOp → Bool
  | .decline _ => true
  | _ => false

/-- Effect of one workflow operation on the friend_requests map (listPending
is a pure read). -/
def applyWOp (requests : Requests) : WOp → Requests
  | .send s r t => (send_friend_request requests s r t).2
  | .listPending _ => requests
  | .accept rid => (accept_friend_request requests rid).2
  | .decline rid => (decline_friend_request requests rid).2

/-- Run a sequence of workflow operations. -/
def runWOps (requests : Requests) : List WOp → Requests
  | [] => requests
  | op :: ops => runWOps (applyWOp requests op) ops

/-- One operation on the friend graph. -/
inductive GOp where
  | add (user_id friend_id : String)
  | remove (user_id friend_id : String)
deriving DecidableEq

/-- Effect of one graph operation. -/
def applyGOp (m : Friendships) : GOp → Friendships
  | .add a b => add_friend m a b
  | .remove a b => remove_friend m a b

/-- Run a sequence of graph operations. -/
def runGOps (m : Friendships) : List GOp → Friendships
  | [] => m
  | op :: ops => runGOps (applyGOp m op) ops

/-- One mutation of a user record in the registry. -/
inductive UOp where
  | setLocation (location : LocationData)
  | setSharingLevel (level : SharingLevel)
  | setProfile (user_name : Option String)
deriving DecidableEq

/-- Effect of one registry mutation on a given user, at a given clock read. -/
def applyUOp (users : Users) (user_id : String) : UOp → Int → Users
  | .setLocation loc, t => update_location users user_id loc t
  | .setSharingLevel lvl, t => update_sharing_level users user_id lvl t
  | .setProfile nm, t => update_profile users user_id nm t

/-- The lastUpdated field currently stored for a user. -/
def lastUpdatedOf (users : Users) (user_id : String) : Option Int :=
  (findEntry user_id users).bind User.last_updated

/-- The lastUpdated value observed for a user after each mutation of a
sequential run (each mutation paired with its clock read). -/
def lastUpdatedTrace (users : Users) (user_id : String) :
    List (UOp × Int) → List (Option Int)
  | [] => []
  | m :: ms =>
      lastUpdatedOf (applyUOp users user_id m.1 m.2) user_id ::
        lastUpdatedTrace (applyUOp users user_id m.1 m.2) user_id ms

/-! ### Concrete fixtures for counterexamples and witnesses -/

/-- A stored location used by concrete instances. -/
def sampleLocation : LocationData :=
  { latitude := 5, longitude := 7, city := none, country := none,
    timestamp := none }

/-- A user with a stored location and no sharing level (hidden tier). -/
def hiddenUser : User :=
  { id := "A", user_name := none, sharing_level := none,
    location := some sampleLocation, last_updated := none }

/-- A user with a stored location shared at Realtime level. -/
def realtimeUser : User :=
  { id := "B", user_name := none, sharing_level := some .Realtime,
    location := some sampleLocation, last_updated := some 3 }

/-- An already-accepted request record. -/
def acceptedRequest : FriendRequest :=
  { id := "A_B", sender_id := "A", receiver_id := "B",
    status := .Accepted, timestamp := 0 }

/-- A request store holding one accepted record. -/
def acceptedStore : Requests := [("A_B", acceptedRequest)]

/-- A workflow run without any decline operation. -/
def noDeclineOps : List WOp :=
  [.send "C" "D" 1, .listPending "A", .accept "A_B", .accept "nope"]

end GPS

/-! ## Theorems -/

namespace GPS

/-! ### Association-list lemmas -/

@[simp] theorem findEntry_nil {α : Type} (k : String) :
    findEntry (α := α) k [] = none := rfl

@[simp] theorem findEntry_cons {α : Type} (k : String) (e : String × α)
    (es : List (String × α)) :
    findEntry k (e :: es) = if e.1 = k then some e.2 else findEntry k es := rfl

theorem findEntry_eraseEntry_self {α : Type} (k : String)
    (m : List (String × α)) : findEntry k (eraseEntry k m) = none := by
  induction m with
  | nil => rfl
  | cons e es ih =>
    by_cases h : e.1 = k <;> simp [eraseEntry, h, ih]

theorem findEntry_eraseEntry_ne {α : Type} {k q : String} (h : q ≠ k)
    (m : List (String × α)) : findEntry q (eraseEntry k m) = findEntry q m := by
  have hkq : ¬ k = q := fun hkq => h hkq.symm
  induction m with
  | nil => rfl
  | cons e es ih =>
    by_cases hk : e.1 = k
    · simp [eraseEntry, hk, hkq, ih]
    · by_cases hq : e.1 = q <;> simp [eraseEntry, hk, hq, h, ih]

@[simp] theorem findEntry_insertEntry_self {α : Type} (k : String) (v : α)
    (m : List (String × α)) : findEntry k (insertEntry k v m) = some v := by
  simp [insertEntry]

theorem findEntry_insertEntry_ne {α : Type} {k q : String} (h : q ≠ k) (v : α)
    (m : List (String × α)) :
    findEntry q (insertEntry k v m) = findEntry q m := by
  have : ¬ k = q := fun hk => h hk.symm
  simp [insertEntry, this, findEntry_eraseEntry_ne h]

theorem findEntry_modifyEntry_self {α : Type} (k : String) (f : α → α)
    (m : List (String × α)) :
    findEntry k (modifyEntry k f m) = (findEntry k m).map f := by
  induction m with
  | nil => rfl
  | cons e es ih =>
    by_cases h : e.1 = k
    · simp [modifyEntry, h]
    · simp [modifyEntry, h] at ih ⊢
      exact ih

theorem findEntry_modifyEntry_ne {α : Type} {k q : String} (h : q ≠ k)
    (f : α → α) (m : List (String × α)) :
    findEntry q (modifyEntry k f m) = findEntry q m := by
  have hkq : ¬ k = q := fun hkq => h hkq.symm
  induction m with
  | nil => rfl
  | cons e es ih =>
    by_cases hk : e.1 = k
    · simp [modifyEntry, hk, hkq] at ih ⊢
      exact ih
    · by_cases hq : e.1 = q
      · simp [modifyEntry, hk, hq, h]
      · simp [modifyEntry, hk, hq] at ih ⊢
        exact ih

/-! ### Claim C2: the privacy transform -/

/-- Claim C2: for every stored location and sharing level, the privacy
transform returns the location unchanged under Realtime; under City it
returns the location with latitude and longitude each independently replaced
by (value * 100) rounded half away from zero then divided by 100, other
fields unchanged (in particular latitude 37.7749295 becomes 37.77 and
longitude -122.4194155 becomes -122.42); with no sharing level it returns no
location at all. -/
theorem privacyTransform_spec :
    (∀ loc : LocationData, privacyTransform loc (some .Realtime) = some loc) ∧
    (∀ loc : LocationData, privacyTransform loc (some .City) =
      some { loc with
        latitude := (roundAwayFromZero (loc.latitude * 100) : ℚ) / 100,
        longitude := (roundAwayFromZero (loc.longitude * 100) : ℚ) / 100 }) ∧
    (∀ loc : LocationData, privacyTransform loc none = none) ∧
    privacyTransform
        { latitude := 37.7749295, longitude := -122.4194155, city := none,
          country := none, timestamp := none } (some .City) =
      some
        { latitude := 37.77, longitude := -122.42, city := none,
          country := none, timestamp := none } ∧
    privacyTransform
        { latitude := 37.7749295, longitude := -122.4194155, city := none,
          country := none, timestamp := none } (some .Realtime) =
      some
        { latitude := 37.7749295, longitude := -122.4194155, city := none,
          country := none, timestamp := none } ∧
    privacyTransform
        { latitude := 37.7749295, longitude := -122.4194155, city := none,
          country := none, timestamp := none } none = none := by
  refine ⟨fun loc => rfl, fun loc => rfl, fun loc => rfl, ?_, rfl, rfl⟩
  simp [privacyTransform, filterCity, roundAwayFromZero]
  norm_num

/-! ### Claim C5: send_friend_request -/

/-- Claim C5: send fails with the duplicate-request error exactly when a
record with the derived id already exists, in any status, leaving the map
unchanged; otherwise it creates exactly one Pending record carrying the
derived id, the sender, the receiver and the creation timestamp, returns it,
and leaves every other key unchanged. -/
theorem send_friend_request_spec (requests : Requests)
    (sender_id receiver_id : String) (t : Int) :
    (∀ old, findEntry (requestIdOf sender_id receiver_id) requests = some old →
      send_friend_request requests sender_id receiver_id t =
        (.error "Friend request already exists", requests)) ∧
    (findEntry (requestIdOf sender_id receiver_id) requests = none →
      (send_friend_request requests sender_id receiver_id t).1 =
        .ok { id := requestIdOf sender_id receiver_id, sender_id := sender_id,
              receiver_id := receiver_id, status := .Pending, timestamp := t } ∧
      findEntry (requestIdOf sender_id receiver_id)
          (send_friend_request requests sender_id receiver_id t).2 =
        some { id := requestIdOf sender_id receiver_id, sender_id := sender_id,
               receiver_id := receiver_id, status := .Pending, timestamp := t } ∧
      ∀ k, k ≠ requestIdOf sender_id receiver_id →
        findEntry k (send_friend_request requests sender_id receiver_id t).2 =
          findEntry k requests) := by
  constructor
  · intro old hold
    simp [send_friend_request, hold]
  · intro hnone
    refine ⟨by simp [send_friend_request, hnone], ?_, ?_⟩
    · simp [send_friend_request, hnone]
    · intro k hk
      simp [send_friend_request, hnone, findEntry_insertEntry_ne hk]

/-- Witness for C5: on the empty map send("A","B") succeeds with a Pending
record under id "A_B", and an immediate second send("A","B") hits the
existing record and fails with the duplicate-request error. -/
theorem send_friend_request_spec_witness :
    (findEntry (requestIdOf "A" "B") ([] : Requests) = none ∧
      (send_friend_request ([] : Requests) "A" "B" 0).1 =
        .ok { id := "A_B", sender_id := "A", receiver_id := "B",
              status := .Pending, timestamp := 0 }) ∧
    (findEntry (requestIdOf "A" "B")
        (send_friend_request ([] : Requests) "A" "B" 0).2 =
      some { id := "A_B", sender_id := "A", receiver_id := "B",
             status := .Pending, timestamp := 0 } ∧
      send_friend_request (send_friend_request ([] : Requests) "A" "B" 0).2
          "A" "B" 1 =
        (.error "Friend request already exists",
         (send_friend_request ([] : Requests) "A" "B" 0).2)) :=
  ⟨⟨by decide, ((send_friend_request_spec [] "A" "B" 0).2 (by decide)).1⟩,
   ⟨by decide,
    (send_friend_request_spec (send_friend_request ([] : Requests) "A" "B" 0).2
        "A" "B" 1).1
      { id := "A_B", sender_id := "A", receiver_id := "B",
        status := .Pending, timestamp := 0 } (by decide)⟩⟩

/-! ### Claim C6: accept_friend_request -/

/-- Claim C6: accept fails with the not-found error and leaves the map
unchanged exactly when the id is absent; otherwise, whatever the current
status, it sets the status of that record to Accepted in place, leaves all
its other fields and all other keys unchanged, and returns the updated
record. -/
theorem accept_friend_request_spec (requests : Requests) (request_id : String) :
    (findEntry request_id requests = none →
      accept_friend_request requests request_id =
        (.error "Friend request not found", requests)) ∧
    (∀ req, findEntry request_id requests = some req →
      (accept_friend_request requests request_id).1 =
        .ok { req with status := .Accepted } ∧
      findEntry request_id (accept_friend_request requests request_id).2 =
        some { req with status := .Accepted } ∧
      ∀ k, k ≠ request_id →
        findEntry k (accept_friend_request requests request_id).2 =
          findEntry k requests) := by
  constructor
  · intro hnone
    simp [accept_friend_request, hnone]
  · intro req hreq
    refine ⟨by simp [accept_friend_request, hreq], ?_, ?_⟩
    · simp [accept_friend_request, hreq, findEntry_modifyEntry_self]
    · intro k hk
      simp [accept_friend_request, hreq, findEntry_modifyEntry_ne hk]

/-- Witness for C6: accepting "nonexistent" on the empty map yields the
not-found error, and accepting "A_B" after send("A","B") returns the record
flipped to Accepted. -/
theorem accept_friend_request_spec_witness :
    (findEntry "nonexistent" ([] : Requests) = none ∧
      accept_friend_request ([] : Requests) "nonexistent" =
        (.error "Friend request not found", ([] : Requests))) ∧
    (findEntry "A_B" (send_friend_request ([] : Requests) "A" "B" 0).2 =
      some { id := "A_B", sender_id := "A", receiver_id := "B",
             status := .Pending, timestamp := 0 } ∧
      (accept_friend_request (send_friend_request ([] : Requests) "A" "B" 0).2
          "A_B").1 =
        .ok { id := "A_B", sender_id := "A", receiver_id := "B",
              status := .Accepted, timestamp := 0 }) :=
  ⟨⟨by decide, (accept_friend_request_spec [] "nonexistent").1 (by decide)⟩,
   ⟨by decide,
    ((accept_friend_request_spec (send_friend_request ([] : Requests) "A" "B" 0).2
          "A_B").2
        { id := "A_B", sender_id := "A", receiver_id := "B",
          status := .Pending, timestamp := 0 } (by decide)).1⟩⟩

/-! ### Claim C7: decline_friend_request -/

/-- Claim C7: decline returns success unconditionally, even when no record
with the id exists; afterwards no record with that id is present, and every
other key is unchanged. -/
theorem decline_friend_request_spec (requests : Requests) (request_id : String) :
    (decline_friend_request requests request_id).1 = .ok () ∧
    findEntry request_id (decline_friend_request requests request_id).2 =
      none ∧
    ∀ k, k ≠ request_id →
      findEntry k (decline_friend_request requests request_id).2 =
        findEntry k requests :=
  ⟨rfl, findEntry_eraseEntry_self request_id requests,
   fun _ hk => findEntry_eraseEntry_ne hk requests⟩

/-- Witness for C7: declining "nonexistent" on a one-record map succeeds,
removes nothing else, and leaves the unrelated key "A_B" intact. -/
theorem decline_friend_request_spec_witness :
    (decline_friend_request (send_friend_request ([] : Requests) "A" "B" 0).2
        "nonexistent").1 = .ok () ∧
    findEntry "nonexistent"
        (decline_friend_request (send_friend_request ([] : Requests) "A" "B" 0).2
          "nonexistent").2 = none ∧
    ("A_B" : String) ≠ "nonexistent" ∧
    findEntry "A_B"
        (decline_friend_request (send_friend_request ([] : Requests) "A" "B" 0).2
          "nonexistent").2 =
      findEntry "A_B" (send_friend_request ([] : Requests) "A" "B" 0).2 :=
  ⟨(decline_friend_request_spec (send_friend_request ([] : Requests) "A" "B" 0).2
      "nonexistent").1,
   (decline_friend_request_spec (send_friend_request ([] : Requests) "A" "B" 0).2
      "nonexistent").2.1,
   by decide,
   (decline_friend_request_spec (send_friend_request ([] : Requests) "A" "B" 0).2
      "nonexistent").2.2 "A_B" (by decide)⟩

/-! ### Claim C3: order sensitivity of the derived request id -/

theorem append_sep_inj (xs : List Char) {ys zs ws : List Char}
    (hx : '_' ∉ xs) (hy : '_' ∉ ys)
    (h : xs ++ '_' :: zs = ys ++ '_' :: ws) : xs = ys ∧ zs = ws := by
  induction xs generalizing ys with
  | nil =>
    cases ys with
    | nil => simpa using h
    | cons y ys1 =>
      simp only [List.nil_append, List.cons_append] at h
      injection h with h1 h2
      rw [← h1] at hy
      simp at hy
  | cons x xs1 ih =>
    cases ys with
    | nil =>
      simp only [List.nil_append, List.cons_append] at h
      injection h with h1 h2
      rw [h1] at hx
      simp at hx
    | cons y ys1 =>
      simp only [List.cons_append] at h
      injection h with h1 h2
      have hx1 : '_' ∉ xs1 := fun hc => hx (List.mem_cons_of_mem _ hc)
      have hy1 : '_' ∉ ys1 := fun hc => hy (List.mem_cons_of_mem _ hc)
      obtain ⟨hxy, hzw⟩ := ih hx1 hy1 h2
      exact ⟨by rw [h1, hxy], hzw⟩

/-- Counterexample to C3 as stated: the distinct ids "x_x" and "x" collide
because the separator is unescaped, the derived id is the same in both
orders, and the reversed send after a successful send fails with the
duplicate-request error. -/
theorem requestIdOf_collision_cex :
    requestIdOf "x_x" "x" = requestIdOf "x" "x_x" ∧ ("x_x" : String) ≠ "x" ∧
    (send_friend_request (send_friend_request ([] : Requests) "x_x" "x" 0).2
        "x" "x_x" 1).1 = .error "Friend request already exists" := by
  refine ⟨by decide, by decide, by decide⟩

/-- Claim C3 amended: for user ids free of the separator character, the
derived id of (a, b) differs from the derived id of (b, a) whenever a and b
are distinct, and send(b, a) performed after a successful send(a, b) on an
otherwise empty request store succeeds rather than failing with the
duplicate-request error. -/
theorem requestIdOf_order_spec (a b : String) (hab : a ≠ b)
    (ha : '_' ∉ a.data) (hb : '_' ∉ b.data) (t1 t2 : Int) :
    requestIdOf a b ≠ requestIdOf b a ∧
    (send_friend_request (send_friend_request ([] : Requests) a b t1).2
        b a t2).1 =
      .ok { id := requestIdOf b a, sender_id := b, receiver_id := a,
            status := .Pending, timestamp := t2 } := by
  have hne : requestIdOf a b ≠ requestIdOf b a := by
    intro heq
    have hd : (requestIdOf a b).data = (requestIdOf b a).data := by rw [heq]
    simp only [requestIdOf, String.data_append] at hd
    have hd2 : a.data ++ '_' :: b.data = b.data ++ '_' :: a.data := by
      simpa using hd
    exact hab (String.ext (append_sep_inj a.data ha hb hd2).1)
  refine ⟨hne, ?_⟩
  have hcond : ¬ requestIdOf a b = requestIdOf b a := hne
  simp [send_friend_request, insertEntry, eraseEntry, findEntry, hcond]

/-- Witness for C3 amended: with ids "A" and "B" the two derived ids differ
and the reversed send succeeds after the first one. -/
theorem requestIdOf_order_spec_witness :
    (("A" : String) ≠ "B" ∧ '_' ∉ ("A" : String).data ∧
      '_' ∉ ("B" : String).data) ∧
    (requestIdOf "A" "B" ≠ requestIdOf "B" "A" ∧
      (send_friend_request (send_friend_request ([] : Requests) "A" "B" 0).2
          "B" "A" 1).1 =
        .ok { id := requestIdOf "B" "A", sender_id := "B", receiver_id := "A",
              status := .Pending, timestamp := 1 }) :=
  ⟨⟨by decide, by decide, by decide⟩,
   requestIdOf_order_spec "A" "B" (by decide) (by decide) (by decide) 0 1⟩

/-! ### Claim C4: retention of Accepted records -/

theorem accepted_update_eq {req : FriendRequest}
    (h : req.status = .Accepted) :
    { req with status := FriendRequestStatus.Accepted } = req := by
  cases req
  simp_all

/-- Counterexample to C4 as stated: send then accept leaves an Accepted
record under "A_B", and a subsequent decline of "A_B" removes that Accepted
record from the store. -/
theorem accepted_removed_by_decline_cex :
    findEntry "A_B"
        (runWOps ([] : Requests) [.send "A" "B" 0, .accept "A_B"]) =
      some { id := "A_B", sender_id := "A", receiver_id := "B",
             status := .Accepted, timestamp := 0 } ∧
    findEntry "A_B"
        (runWOps ([] : Requests)
          [.send "A" "B" 0, .accept "A_B", .decline "A_B"]) = none := by
  refine ⟨by decide, by decide⟩

/-- Claim C4 amended: an Accepted record is retained by every sequence of
workflow operations that contains no decline; send, listPending and accept
never remove it (decline, however, removes the record with its id whatever
the status). -/
theorem accepted_retained_without_decline (request_id : String)
    (req : FriendRequest) (hacc : req.status = .Accepted) :
    ∀ (ops : List WOp) (requests : Requests),
      findEntry request_id requests = some req →
      (∀ op ∈ ops, op.isDecline = false) →
      findEntry request_id (runWOps requests ops) = some req := by
  intro ops
  induction ops with
  | nil =>
    intro requests hreq _
    exact hreq
  | cons op ops ih =>
    intro requests hreq hops
    have hop := hops op (List.mem_cons_self op ops)
    have hops1 : ∀ o ∈ ops, o.isDecline = false := fun o ho =>
      hops o (List.mem_cons_of_mem _ ho)
    have hstep : findEntry request_id (applyWOp requests op) = some req := by
      cases op with
      | send s r t =>
        cases hfind : findEntry (requestIdOf s r) requests with
        | some old => simp [applyWOp, send_friend_request, hfind, hreq]
        | none =>
          have hne : request_id ≠ requestIdOf s r := by
            intro he
            rw [he] at hreq
            rw [hreq] at hfind
            exact Option.noConfusion hfind
          simp [applyWOp, send_friend_request, hfind,
            findEntry_insertEntry_ne hne, hreq]
      | listPending u => simpa [applyWOp] using hreq
      | accept rid =>
        by_cases hrid : request_id = rid
        · subst hrid
          simp [applyWOp, accept_friend_request, hreq,
            findEntry_modifyEntry_self, accepted_update_eq hacc]
        · cases hfind : findEntry rid requests with
          | some r0 =>
            simp [applyWOp, accept_friend_request, hfind,
              findEntry_modifyEntry_ne hrid, hreq]
          | none => simp [applyWOp, accept_friend_request, hfind, hreq]
      | decline rid => simp [WOp.isDecline] at hop
    exact ih (applyWOp requests op) hstep hops1

/-- Witness for C4 amended: an Accepted record under "A_B" survives a
concrete decline-free run of sends, pending listings and accepts. -/
theorem accepted_retained_without_decline_witness :
    (findEntry "A_B" acceptedStore = some acceptedRequest ∧
      acceptedRequest.status = .Accepted ∧
      ∀ op ∈ noDeclineOps, op.isDecline = false) ∧
    findEntry "A_B" (runWOps acceptedStore noDeclineOps) =
      some acceptedRequest :=
  ⟨⟨by decide, by decide, by decide⟩,
   accepted_retained_without_decline "A_B" acceptedRequest (by decide)
     noDeclineOps acceptedStore (by decide) (by decide)⟩

/-! ### Claim C8: the friend graph as a symmetric multiset of edges -/

theorem count_filter_not_eq_self (l : List String) (y : String) :
    List.count y (List.filter (fun a => !decide (a = y)) l) = 0 := by
  rw [List.count_eq_zero]
  intro hmem
  have h2 := (List.mem_filter.1 hmem).2
  simp at h2

theorem count_filter_not_eq_other (l : List String) {y c : String}
    (h : ¬ c = y) :
    List.count c (List.filter (fun a => !decide (a = y)) l) =
      List.count c l := by
  apply List.count_filter
  simp [h]

theorem count_single (c x : String) :
    ([x] : List String).count c = if c = x then 1 else 0 := by
  simp [List.count_singleton']
  split_ifs <;> simp_all

theorem count_add_friend (m : Friendships) (x y z c : String) :
    ((add_friend m x y) z).count c =
      ((m z).count c + (if z = x ∧ c = y then 1 else 0)) +
        (if z = y ∧ c = x then 1 else 0) := by
  simp only [add_friend, updateList]
  split_ifs <;> simp_all [List.count_append, count_single]

theorem count_remove_friend (m : Friendships) (x y z c : String) :
    ((remove_friend m x y) z).count c =
      if (z = x ∧ c = y) ∨ (z = y ∧ c = x) then 0 else (m z).count c := by
  simp only [remove_friend, updateList]
  split_ifs <;>
    simp_all [count_filter_not_eq_self, count_filter_not_eq_other]

theorem symCounts_runGOps (ops : List GOp) :
    ∀ (m : Friendships), (∀ a b, (m a).count b = (m b).count a) →
      ∀ a b, ((runGOps m ops) a).count b = ((runGOps m ops) b).count a := by
  induction ops with
  | nil => intro m hm; exact hm
  | cons op ops ih =>
    intro m hm
    apply ih
    intro a b
    cases op with
    | add x y =>
      simp only [applyGOp]
      rw [count_add_friend, count_add_friend, hm a b]
      clear hm ih
      split_ifs <;> first | rfl | tauto
    | remove x y =>
      simp only [applyGOp]
      rw [count_remove_friend, count_remove_friend, hm a b]
      clear hm ih
      split_ifs <;> first | rfl | tauto

/-- Counterexample to C8 as stated: addFriend("A","A") on the empty graph
appends "A" to "A"'s own list twice, so the common count rises by two, not
by exactly one. -/
theorem add_friend_self_cex :
    ((add_friend emptyFriendships "A" "A") "A").count "A" = 2 ∧
    (emptyFriendships "A").count "A" + 1 = 1 := by
  refine ⟨by decide, by decide⟩

/-- Claim C8 amended: in every state reachable from the empty graph the
number of occurrences of b in getFriends(a) equals the number of occurrences
of a in getFriends(b); for distinct a and b, addFriend(a,b) raises that
common count by exactly one on both sides (calling it twice raises it by
two), while addFriend(a,a) appends two occurrences at once; removeFriend
strips every occurrence in both directions regardless of multiplicity. -/
theorem friend_graph_multiset_spec :
    (∀ (ops : List GOp) (a b : String),
      ((runGOps emptyFriendships ops) a).count b =
        ((runGOps emptyFriendships ops) b).count a) ∧
    (∀ (m : Friendships) (a b : String), a ≠ b →
      ((add_friend m a b) a).count b = (m a).count b + 1 ∧
      ((add_friend m a b) b).count a = (m b).count a + 1 ∧
      ((add_friend (add_friend m a b) a b) a).count b = (m a).count b + 2) ∧
    (∀ (m : Friendships) (a : String),
      ((add_friend m a a) a).count a = (m a).count a + 2) ∧
    (∀ (m : Friendships) (a b : String),
      ((remove_friend m a b) a).count b = 0 ∧
      ((remove_friend m a b) b).count a = 0) := by
  refine ⟨?_, ?_, ?_, ?_⟩
  · intro ops a b
    exact symCounts_runGOps ops emptyFriendships (fun a b => rfl) a b
  · intro m a b hab
    refine ⟨?_, ?_, ?_⟩
    · rw [count_add_friend]
      simp [hab]
    · rw [count_add_friend]
      simp [hab, Ne.symm hab]
    · rw [count_add_friend, count_add_friend]
      simp [hab]
  · intro m a
    rw [count_add_friend]
    simp
  · intro m a b
    constructor
    · rw [count_remove_friend]
      simp
    · rw [count_remove_friend]
      simp

/-- Witness for C8 amended: with the distinct ids "A" and "B", one add on
the empty graph gives count one on both sides, and a remove zeroes both. -/
theorem friend_graph_multiset_spec_witness :
    (("A" : String) ≠ "B" ∧
      ((add_friend emptyFriendships "A" "B") "A").count "B" =
        (emptyFriendships "A").count "B" + 1 ∧
      ((add_friend emptyFriendships "A" "B") "B").count "A" =
        (emptyFriendships "B").count "A" + 1) ∧
    ((remove_friend emptyFriendships "A" "B") "A").count "B" = 0 :=
  ⟨⟨by decide,
    (friend_graph_multiset_spec.2.1 emptyFriendships "A" "B" (by decide)).1,
    (friend_graph_multiset_spec.2.1 emptyFriendships "A" "B" (by decide)).2.1⟩,
   (friend_graph_multiset_spec.2.2.2 emptyFriendships "A" "B").1⟩

/-! ### Claim C10: frame property of the registry upserts -/

/-- Claim C10: each registry upsert touches only the addressed record,
setting exactly its designated field (the incoming location is stamped with
the clock read) and lastUpdated, leaving the record's other fields and every
other user's record unchanged; on a missing id it creates a record with the
designated field set and every other field empty. -/
theorem upsert_frame (users : Users) (user_id : String) (op : UOp) (t : Int) :
    (∀ v, v ≠ user_id →
      findEntry v (applyUOp users user_id op t) = findEntry v users) ∧
    (∀ u0, findEntry user_id users = some u0 →
      findEntry user_id (applyUOp users user_id op t) = some
        (match op with
         | .setLocation loc =>
             { u0 with location := some { loc with timestamp := some t },
                       last_updated := some t }
         | .setSharingLevel lvl =>
             { u0 with sharing_level := some lvl, last_updated := some t }
         | .setProfile nm =>
             { u0 with user_name := nm, last_updated := some t })) ∧
    (findEntry user_id users = none →
      findEntry user_id (applyUOp users user_id op t) = some
        (match op with
         | .setLocation loc =>
             { id := user_id, user_name := none, sharing_level := none,
               location := some { loc with timestamp := some t },
               last_updated := some t }
         | .setSharingLevel lvl =>
             { id := user_id, user_name := none, sharing_level := some lvl,
               location := none, last_updated := some t }
         | .setProfile nm =>
             { id := user_id, user_name := nm, sharing_level := none,
               location := none, last_updated := some t })) := by
  refine ⟨?_, ?_, ?_⟩
  · intro v hv
    cases op with
    | setLocation loc =>
      cases hfind : findEntry user_id users <;>
        simp [applyUOp, update_location, hfind, findEntry_insertEntry_ne hv]
    | setSharingLevel lvl =>
      cases hfind : findEntry user_id users <;>
        simp [applyUOp, update_sharing_level, hfind,
          findEntry_insertEntry_ne hv]
    | setProfile nm =>
      cases hfind : findEntry user_id users <;>
        simp [applyUOp, update_profile, hfind, findEntry_insertEntry_ne hv]
  · intro u0 h0
    cases op with
    | setLocation loc => simp [applyUOp, update_location, h0]
    | setSharingLevel lvl => simp [applyUOp, update_sharing_level, h0]
    | setProfile nm => simp [applyUOp, update_profile, h0]
  · intro h0
    cases op with
    | setLocation loc => simp [applyUOp, update_location, h0]
    | setSharingLevel lvl => simp [applyUOp, update_sharing_level, h0]
    | setProfile nm => simp [applyUOp, update_profile, h0]

/-- Witness for C10: a profile upsert on a one-user registry leaves key "B"
alone and rewrites exactly userName and lastUpdated of "A"'s record. -/
theorem upsert_frame_witness :
    (("B" : String) ≠ "A" ∧
      findEntry "B"
          (applyUOp [("A", hiddenUser)] "A" (.setProfile (some "Ann")) 5) =
        findEntry "B" [("A", hiddenUser)]) ∧
    (findEntry "A" ([("A", hiddenUser)] : Users) = some hiddenUser ∧
      findEntry "A"
          (applyUOp [("A", hiddenUser)] "A" (.setProfile (some "Ann")) 5) =
        some { hiddenUser with user_name := some "Ann",
                               last_updated := some 5 }) :=
  ⟨⟨by decide,
    (upsert_frame [("A", hiddenUser)] "A" (.setProfile (some "Ann")) 5).1 "B"
      (by decide)⟩,
   ⟨by decide,
    (upsert_frame [("A", hiddenUser)] "A" (.setProfile (some "Ann")) 5).2.1
      hiddenUser (by decide)⟩⟩

/-! ### Claim C9: monotonicity of lastUpdated -/

theorem lastUpdated_stamp (users : Users) (user_id : String) (op : UOp)
    (t : Int) :
    lastUpdatedOf (applyUOp users user_id op t) user_id = some t := by
  cases op with
  | setLocation loc =>
    cases hfind : findEntry user_id users <;>
      simp [lastUpdatedOf, applyUOp, update_location, hfind]
  | setSharingLevel lvl =>
    cases hfind : findEntry user_id users <;>
      simp [lastUpdatedOf, applyUOp, update_sharing_level, hfind]
  | setProfile nm =>
    cases hfind : findEntry user_id users <;>
      simp [lastUpdatedOf, applyUOp, update_profile, hfind]

theorem lastUpdatedTrace_eq (user_id : String) :
    ∀ (ms : List (UOp × Int)) (users : Users),
      lastUpdatedTrace users user_id ms = ms.map fun m => some m.2 := by
  intro ms
  induction ms with
  | nil => intro users; rfl
  | cons m ms ih =>
    intro users
    simp [lastUpdatedTrace, lastUpdated_stamp, ih]

/-- Claim C9: across any sequential run of mutations to one user's record
whose clock reads are non-decreasing, the lastUpdated values observed after
the successive mutations are all present and non-decreasing. -/
theorem lastUpdated_monotone (users : Users) (user_id : String)
    (ms : List (UOp × Int))
    (h : (ms.map Prod.snd).Chain' (· ≤ ·)) :
    (lastUpdatedTrace users user_id ms).Chain'
      (fun x y => ∃ t1 t2, x = some t1 ∧ y = some t2 ∧ t1 ≤ t2) := by
  rw [lastUpdatedTrace_eq user_id ms users]
  have h2 : ms.Chain' (fun m1 m2 : UOp × Int => m1.2 ≤ m2.2) :=
    (List.chain'_map Prod.snd).1 h
  exact (List.chain'_map _).2 (h2.imp fun a b hab => ⟨a.2, b.2, rfl, rfl, hab⟩)

/-- Witness for C9: a concrete three-mutation run with clock reads 0, 1, 1
produces a non-decreasing lastUpdated trace. -/
theorem lastUpdated_monotone_witness :
    (([(UOp.setProfile none, (0 : Int)), (UOp.setLocation sampleLocation, 1),
        (UOp.setSharingLevel .City, 1)].map Prod.snd).Chain' (· ≤ ·) ∧
      (lastUpdatedTrace ([] : Users) "A"
          [(UOp.setProfile none, (0 : Int)),
           (UOp.setLocation sampleLocation, 1),
           (UOp.setSharingLevel .City, 1)]).Chain'
        (fun x y => ∃ t1 t2, x = some t1 ∧ y = some t2 ∧ t1 ≤ t2)) :=
  ⟨by simp,
   lastUpdated_monotone ([] : Users) "A"
     [(UOp.setProfile none, (0 : Int)), (UOp.setLocation sampleLocation, 1),
      (UOp.setSharingLevel .City, 1)] (by simp)⟩

/-! ### Claim C1: where the privacy transform is applied -/

/-- Counterexample to C1 as stated: user "A" has a stored location and no
sharing level, so the privacy transform would suppress the location on a
third-party read; yet the profile fetch path, which carries no caller
identity and serves any caller, returns the stored location untransformed. -/
theorem profile_read_unfiltered_cex :
    (get_profile (insertEntry "A" hiddenUser []) "A").location =
      some sampleLocation ∧
    privacyTransform sampleLocation hiddenUser.sharing_level = none := by
  refine ⟨by decide, by decide⟩

/-- Claim C1 amended: the privacy transform is applied on the two
friend-location read paths — every record the single fetch returns is the
empty profile or the privacy-filtered stored record, every record the bulk
fetch returns is the privacy-filtered stored record of some friend, and the
filtered record's exposed location is exactly the transform of the stored
one — but the profile fetch path returns the stored record, location
untransformed, to any caller, owner or not. -/
theorem privacy_filter_read_paths (users : Users) (friendships : Friendships)
    (user_id friend_id : String) :
    (∀ u : User, (applyPrivacy u).location =
      u.location.bind fun loc => privacyTransform loc u.sharing_level) ∧
    (get_friend_location users friendships user_id friend_id =
        emptyUser friend_id ∨
      ∃ u, get_user users friend_id = some u ∧
        get_friend_location users friendships user_id friend_id =
          applyPrivacy u) ∧
    (∀ x ∈ get_friends_locations users friendships user_id,
      ∃ fid u, fid ∈ get_friends friendships user_id ∧
        get_user users fid = some u ∧ x = applyPrivacy u) ∧
    (∀ u, get_user users user_id = some u →
      get_profile users user_id = u) := by
  refine ⟨?_, ?_, ?_, ?_⟩
  · intro u
    cases hloc : u.location with
    | none => simp [applyPrivacy, hloc]
    | some loc =>
      cases hsl : u.sharing_level with
      | none => simp [applyPrivacy, privacyTransform, hloc, hsl]
      | some lvl =>
        cases lvl <;> simp [applyPrivacy, privacyTransform, hloc, hsl]
  · by_cases hmem : friend_id ∈ get_friends friendships user_id
    · cases hu : get_user users friend_id with
      | none =>
        left
        simp [get_friend_location, hmem, hu]
      | some u =>
        right
        exact ⟨u, rfl, by simp [get_friend_location, hmem, hu]⟩
    · left
      simp [get_friend_location, hmem]
  · intro x hx
    simp only [get_friends_locations, List.mem_filterMap] at hx
    obtain ⟨fid, hfid, hmap⟩ := hx
    rw [Option.map_eq_some'] at hmap
    obtain ⟨u, hu, hxu⟩ := hmap
    exact ⟨fid, u, hfid, hu, hxu.symm⟩
  · intro u hu
    simp [get_profile, hu]

/-- Witness for C1 amended: with "B" a Realtime-sharing friend of "A", the
bulk fetch output for "A" is the filtered record of a stored friend, and the
profile fetch returns "B"'s stored record as is. -/
theorem privacy_filter_read_paths_witness :
    (realtimeUser ∈
        get_friends_locations [("B", realtimeUser)]
          (add_friend emptyFriendships "A" "B") "A" ∧
      ∃ fid u, fid ∈ get_friends (add_friend emptyFriendships "A" "B") "A" ∧
        get_user [("B", realtimeUser)] fid = some u ∧
        realtimeUser = applyPrivacy u) ∧
    (get_user [("B", realtimeUser)] "B" = some realtimeUser ∧
      get_profile [("B", realtimeUser)] "B" = realtimeUser) :=
  ⟨⟨by decide,
    (privacy_filter_read_paths [("B", realtimeUser)]
        (add_friend emptyFriendships "A" "B") "A" "B").2.2.1 realtimeUser
      (by decide)⟩,
   ⟨by decide,
    (privacy_filter_read_paths [("B", realtimeUser)]
        (add_friend emptyFriendships "A" "B") "B" "B").2.2.2 realtimeUser
      (by decide)⟩⟩

end GPS
